import Mathlib

/-!
# Verification of the atdata-app change-stream broadcaster and ingestion pipeline

A shallow embedding of `changestream.py`, `ingestion/processor.py`, the
relevant storage entry points of `database.py`, and the message-processing
loop of `ingestion/jetstream.py`, together with proofs of the behavioural
properties stated in the specification.

Conventions of the embedding:
* Python `int` sequence numbers and cursors become `Int` (cursors may be
  negative); counters that are always non-negative become `Nat`.
* `collections.deque(maxlen=n)` becomes a list kept to its last `n`
  elements on append.
* `asyncio.Queue(maxsize=n)` becomes a list; `put_nowait` fails exactly
  when `n > 0` and the list already holds `n` elements.
* Fallible calls return `Except String`; an `error` value models a Python
  exception escaping the call.
* External collaborators (the PostgreSQL pool, wall-clock timers) are
  modelled as explicit oracles passed in: a `Storage` record of
  success/failure outcomes per operation, and a boolean per message for
  the elapsed-interval test of the checkpoint policy.
-/

set_option maxHeartbeats 1000000

namespace AtData

/-- JSON-like record body (`dict[str, Any]` in the source), kept abstract as
an association list of string keys and string-rendered values. -/
abbrev RecordData := List (String × String)

/-- `changestream.ChangeEvent`: a single change event in the stream. -/
structure ChangeEvent where
  seq : Int
  type : String
  collection : String
  did : String
  rkey : String
  timestamp : String
  record : Option RecordData
  cid : Option String
deriving DecidableEq, Repr

/-- Append to a `collections.deque(maxlen=maxlen)`: keep only the last
`maxlen` elements after the append. -/
def dequeAppend (maxlen : Nat) (buf : List ChangeEvent) (ev : ChangeEvent) :
    List ChangeEvent :=
  let b := buf ++ [ev]
  b.drop (b.length - maxlen)

/-- `asyncio.Queue.put_nowait`: `none` models `QueueFull` (raised exactly when
`maxsize > 0` and the queue already holds `maxsize` items), `some` the
successfully extended queue. -/
def queuePutNowait (maxsize : Nat) (q : List ChangeEvent) (ev : ChangeEvent) :
    Option (List ChangeEvent) :=
  if 0 < maxsize ∧ maxsize ≤ q.length then none else some (q ++ [ev])

/-- Add an element to a Python `set` modelled as a duplicate-free list. -/
def setAdd (s : List Nat) (x : Nat) : List Nat :=
  if x ∈ s then s else s ++ [x]

/-- `changestream.ChangeStream`: broadcast channel with bounded replay buffer.
Subscriber queues live in an association list in subscription order, mirroring
the insertion-ordered Python dict `_subscribers`. -/
structure ChangeStream where
  buffer_size : Nat
  subscriber_queue_size : Nat
  max_subscribers : Nat
  seq : Int
  buffer : List ChangeEvent
  subscribers : List (Nat × List ChangeEvent)
  dropped_subs : List Nat
  next_sub_id : Nat
deriving DecidableEq, Repr

/-- A freshly constructed `ChangeStream(buffer_size=b, subscriber_queue_size=q,
max_subscribers=m)` after `__post_init__`. -/
def mkChangeStream (b q m : Nat) : ChangeStream :=
  { buffer_size := b
    subscriber_queue_size := q
    max_subscribers := m
    seq := 0
    buffer := []
    subscribers := []
    dropped_subs := []
    next_sub_id := 0 }

/-- The sequence number `publish` assigns to the incoming event
(`event.seq = self._seq + 1`, observable by the caller because Python mutates
the event in place). -/
def ChangeStream.assignSeq (cs : ChangeStream) (event : ChangeEvent) :
    ChangeEvent :=
  { event with seq := cs.seq + 1 }

/-- `ChangeStream.publish`: assign the next sequence number, append to the
ring buffer, then attempt a non-blocking enqueue to every subscriber, marking
a subscriber as dropped when its queue is full. -/
def ChangeStream.publish (cs : ChangeStream) (event : ChangeEvent) :
    ChangeStream :=
  let ev := cs.assignSeq event
  { cs with
    seq := cs.seq + 1
    buffer := dequeAppend cs.buffer_size cs.buffer ev
    subscribers := cs.subscribers.map fun p =>
      match queuePutNowait cs.subscriber_queue_size p.2 ev with
      | some q2 => (p.1, q2)
      | none => p
    dropped_subs := cs.subscribers.foldl
      (fun d p =>
        if (queuePutNowait cs.subscriber_queue_size p.2 ev).isNone then
          setAdd d p.1
        else d)
      cs.dropped_subs }

/-- `ChangeStream.subscribe`: `error` models the `RuntimeError` raised at the
maximum subscriber count; otherwise returns the new subscriber id and the
updated stream holding its fresh empty queue. -/
def ChangeStream.subscribe (cs : ChangeStream) :
    Except String (Nat × ChangeStream) :=
  if cs.max_subscribers ≤ cs.subscribers.length then
    .error "Maximum subscriber count reached"
  else
    .ok (cs.next_sub_id,
      { cs with
        next_sub_id := cs.next_sub_id + 1
        subscribers := cs.subscribers ++ [(cs.next_sub_id, [])] })

/-- `ChangeStream.unsubscribe`: `dict.pop(sub_id, None)` and
`set.discard(sub_id)` — removal that is a no-op when absent. -/
def ChangeStream.unsubscribe (cs : ChangeStream) (sub_id : Nat) :
    ChangeStream :=
  { cs with
    subscribers := cs.subscribers.filter fun p => p.1 ≠ sub_id
    dropped_subs := cs.dropped_subs.filter fun x => x ≠ sub_id }

/-- `ChangeStream.is_dropped`. -/
def ChangeStream.is_dropped (cs : ChangeStream) (sub_id : Nat) : Bool :=
  sub_id ∈ cs.dropped_subs

/-- `ChangeStream.replay_from`: buffered events with `seq > cursor`, or `[]`
when the buffer is empty or the cursor lies outside the buffer window. -/
def ChangeStream.replay_from (cs : ChangeStream) (cursor : Int) :
    List ChangeEvent :=
  match cs.buffer with
  | [] => []
  | oldest :: _ =>
    if cursor < oldest.seq - 1 then []
    else cs.buffer.filter fun ev => cursor < ev.seq

/-- `ChangeStream.current_seq`. -/
def ChangeStream.current_seq (cs : ChangeStream) : Int :=
  cs.seq

/-- `ChangeStream.subscriber_count`. -/
def ChangeStream.subscriber_count (cs : ChangeStream) : Nat :=
  cs.subscribers.length

/-- `changestream.make_change_event`: factory building an event with
sequence 0; the wall-clock timestamp is passed in explicitly. -/
def make_change_event (event_type collection did rkey : String)
    (record : Option RecordData) (cid : Option String) (timestamp : String) :
    ChangeEvent :=
  { seq := 0
    type := event_type
    collection := collection
    did := did
    rkey := rkey
    timestamp := timestamp
    record := record
    cid := cid }

/-- Publish a list of events in order. -/
def ChangeStream.publishAll (cs : ChangeStream) (events : List ChangeEvent) :
    ChangeStream :=
  events.foldl ChangeStream.publish cs

/-- The events as observed by the publisher after each `publish` call: the
input events with their assigned sequence numbers, in publish order. -/
def ChangeStream.publishedEvents (cs : ChangeStream) :
    List ChangeEvent → List ChangeEvent
  | [] => []
  | e :: rest => cs.assignSeq e :: (cs.publish e).publishedEvents rest

/-- `[start, start + 1, ..., start + len - 1]`. -/
def seqRange (start : Int) : Nat → List Int
  | 0 => []
  | n + 1 => start :: seqRange (start + 1) n

/-! ## Ingestion: `database.py` dispatch tables and `processor.process_commit` -/

/-- `database.LEXICON_NAMESPACE`. -/
def LEXICON_NAMESPACE : String := "ac.foundation.dataset"

/-- `database.COLLECTION_TABLE_MAP`. -/
def COLLECTION_TABLE_MAP : List (String × String) :=
  [(LEXICON_NAMESPACE ++ ".schema", "schemas"),
   (LEXICON_NAMESPACE ++ ".record", "entries"),
   (LEXICON_NAMESPACE ++ ".label", "labels"),
   (LEXICON_NAMESPACE ++ ".lens", "lenses")]

/-- `COLLECTION_TABLE_MAP.get(collection)`. -/
def collectionTable (collection : String) : Option String :=
  (COLLECTION_TABLE_MAP.find? fun p => p.1 == collection).map Prod.snd

/-- One Jetstream commit payload (`event["commit"]`): the fields
`processor.process_commit` reads. `record` is `none` when the key is absent
(accessing it then raises `KeyError`); `cid` is read with `.get` and so is
genuinely optional. -/
structure Commit where
  operation : String
  collection : String
  rkey : String
  record : Option RecordData
  cid : Option String
deriving DecidableEq, Repr

/-- One inbound Jetstream message as parsed from JSON: the fields the
consumer and processor read. `time_us` is read with `.get` (optional). -/
structure JetEvent where
  did : String
  time_us : Option Int
  kind : String
  commit : Commit
deriving DecidableEq, Repr

/-- Outcome oracle for the external PostgreSQL collaborator: whether each
storage call returns normally (`true`) or raises (`false`). -/
structure Storage where
  delete_ok : String → String → String → Bool
  upsert_ok : String → String → String → Option String → RecordData → Bool

/-- `database.delete_record`: no-op for a table outside
`COLLECTION_TABLE_MAP.values()`, otherwise the external `DELETE` runs and
may raise. `true` means the call returned without exception. -/
def delete_record (st : Storage) (table did rkey : String) : Bool :=
  if (COLLECTION_TABLE_MAP.map Prod.snd).contains table then
    st.delete_ok table did rkey
  else
    true

/-- The `if table == "schemas": ... elif ...` upsert dispatch chain inside
`process_commit`; a table matching no branch calls nothing and raises
nothing. `true` means no exception was raised. -/
def upsertDispatch (st : Storage) (table did rkey : String)
    (cid : Option String) (record : RecordData) : Bool :=
  if table == "schemas" then st.upsert_ok table did rkey cid record
  else if table == "entries" then st.upsert_ok table did rkey cid record
  else if table == "labels" then st.upsert_ok table did rkey cid record
  else if table == "lenses" then st.upsert_ok table did rkey cid record
  else true

/-- `processor.process_commit`. `use_stream` is whether a `change_stream`
was passed (it defaults to `None` in the source); `ts` stands for the
wall-clock timestamp `make_change_event` would read. The result is the list
of events published to the change stream (`[]` or a singleton), and
`error` models an exception escaping to the caller. -/
def process_commit (st : Storage) (event : JetEvent) (use_stream : Bool)
    (ts : String) : Except String (List ChangeEvent) :=
  let commit := event.commit
  let collection := commit.collection
  match collectionTable collection with
  | none => .ok []
  | some table =>
    let did := event.did
    let rkey := commit.rkey
    let operation := commit.operation
    if operation == "delete" then
      if delete_record st table did rkey then
        .ok (if use_stream then
          [make_change_event "delete" collection did rkey none none ts]
        else [])
      else
        .error "delete_record raised"
    else if operation == "create" || operation == "update" then
      match commit.record with
      | none => .error "KeyError: record"
      | some record =>
        let cid := commit.cid
        if upsertDispatch st table did rkey cid record then
          .ok (if use_stream then
            [make_change_event operation collection did rkey
              (some record) cid ts]
          else [])
        else
          .ok []
    else
      .ok []

/-! ## Ingestion: the `jetstream_consumer` message loop

One websocket connection session of `jetstream_consumer` is modelled over an
explicit list of inbound messages followed by a close reason. Each message
comes with the boolean outcome of the wall-clock test
`now - last_flush >= CURSOR_FLUSH_INTERVAL` at that point (an environment
oracle). `set_cursor` calls are accumulated in `flushes`; events published
to the Change Broadcaster are accumulated in `published`. -/

/-- `jetstream.CURSOR_FLUSH_COUNT`. -/
def CURSOR_FLUSH_COUNT : Nat := 100

/-- Python truthiness of the `int | None` variable `last_time_us`:
`None` and `0` are falsy. -/
def truthyTime : Option Int → Bool
  | none => false
  | some t => t != 0

/-- Mutable state of one connection session of the consumer loop. -/
structure ConnState where
  msg_count : Nat
  last_time_us : Option Int
  flushes : List Int
  published : List ChangeEvent
deriving DecidableEq, Repr

/-- Session state right after a successful connect (`msg_count = 0`,
`last_flush = time.monotonic()`, `last_time_us = None`). -/
def initConnState : ConnState :=
  { msg_count := 0, last_time_us := none, flushes := [], published := [] }

/-- The body of `async for raw_msg in ws` in `jetstream_consumer`: skip
non-commit messages, run `process_commit(pool, event)` — note: without a
change stream — then track `time_us`, count the message, and write the
cursor when the count or elapsed-time condition fires. The boolean result
is whether an exception escaped the body (aborting the connection). -/
def jetstreamStep (st : Storage) (s : ConnState) (msg : JetEvent)
    (timerDue : Bool) : ConnState × Bool :=
  if msg.kind != "commit" then (s, false)
  else
    match process_commit st msg false "" with
    | .error _ => (s, true)
    | .ok evs =>
      let s1 : ConnState :=
        { s with
          published := s.published ++ evs
          last_time_us := msg.time_us
          msg_count := s.msg_count + 1 }
      if truthyTime s1.last_time_us &&
          (s1.msg_count % CURSOR_FLUSH_COUNT == 0 || timerDue) then
        ({ s1 with flushes := s1.flushes ++ [s1.last_time_us.getD 0] }, false)
      else
        (s1, false)

/-- Run the message loop until the messages are exhausted or an exception
aborts it. -/
def runMsgs (st : Storage) (s : ConnState) :
    List (JetEvent × Bool) → ConnState × Bool
  | [] => (s, false)
  | (m, due) :: rest =>
    match jetstreamStep st s m due with
    | (s1, true) => (s1, true)
    | (s1, false) => runMsgs st s1 rest

/-- How one connection session ends. -/
inductive CloseReason
  | normal
  | error
  | cancelled
deriving DecidableEq, Repr

/-- The final flush `if last_time_us: await set_cursor(pool, last_time_us)`. -/
def finalFlush (s : ConnState) : ConnState :=
  if truthyTime s.last_time_us then
    { s with flushes := s.flushes ++ [s.last_time_us.getD 0] }
  else s

/-- One full connection session of `jetstream_consumer`: process the inbound
messages, then close. An exception escaping the loop body, or a
connection-level error (`CloseReason.error`), lands in the
`except Exception` branch, which only logs and backs off — no flush. Normal
iterator exhaustion runs the in-block final flush; cancellation runs the
flush in the `except asyncio.CancelledError` branch. -/
def runConnection (st : Storage) (msgs : List (JetEvent × Bool))
    (close : CloseReason) : ConnState :=
  match runMsgs st initConnState msgs with
  | (s, true) => s
  | (s, false) =>
    match close with
    | .error => s
    | .normal => finalFlush s
    | .cancelled => finalFlush s

/-! ## Concrete scenario material used by the claims -/

/-- Last `n` elements of a list — the contents of a `deque(maxlen=n)`. -/
def lastN {α : Type} (n : Nat) (l : List α) : List α :=
  l.drop (l.length - n)

/-- Run `subscribe` when it is known to succeed (fresh stream below its
subscriber limit); the error fallback returns the stream unchanged. -/
def subscribeOrSelf (cs : ChangeStream) : Nat × ChangeStream :=
  match cs.subscribe with
  | .ok r => r
  | .error _ => (0, cs)

/-- The `i`-th test event fed to the broadcaster scenarios (mirrors the
`make_change_event` calls of the repository's own scenario descriptions). -/
def sampleEvent (i : Nat) : ChangeEvent :=
  make_change_event "create" (LEXICON_NAMESPACE ++ ".record") "did:plc:test"
    (toString i) none none ""

/-- Five events published into the capacity-3 replay scenario. -/
def c1Events : List ChangeEvent := (List.range 5).map sampleEvent

/-- Broadcaster with buffer capacity 3 after publishing 5 events: the buffer
holds sequences 3, 4, 5. -/
def scenarioC1 : ChangeStream :=
  (mkChangeStream 3 256 1000).publishAll c1Events

/-- Three events published into the large-capacity replay scenario. -/
def c10Events : List ChangeEvent := (List.range 3).map sampleEvent

/-- Fresh broadcaster with capacity 5 after publishing 3 events: nothing has
ever been evicted and the buffer holds sequences 1, 2, 3. -/
def scenarioC10 : ChangeStream :=
  (mkChangeStream 5 256 1000).publishAll c10Events

/-- Broadcaster with subscriber queue capacity 1 and one subscriber (id 0),
after publishing two events. -/
def c8Slow : ChangeStream :=
  ((subscribeOrSelf (mkChangeStream 1000 1 1000)).2).publishAll
    [sampleEvent 0, sampleEvent 1]

/-- Independent broadcaster with the default queue capacity 256 and one
subscriber (id 0), after publishing the same two events. -/
def c8Fast : ChangeStream :=
  ((subscribeOrSelf (mkChangeStream 1000 256 1000)).2).publishAll
    [sampleEvent 0, sampleEvent 1]

/-- `sampleEvent 0` as assigned sequence 1 by the first publish. -/
def c8ev1 : ChangeEvent :=
  { seq := 1
    type := "create"
    collection := "ac.foundation.dataset.record"
    did := "did:plc:test"
    rkey := "0"
    timestamp := ""
    record := none
    cid := none }

/-- `sampleEvent 1` as assigned sequence 2 by the second publish. -/
def c8ev2 : ChangeEvent :=
  { c8ev1 with seq := 2, rkey := "1" }

/-- A broadcaster with one registered subscriber (id 0) and nothing else,
used for the unsubscribe no-op scenario. -/
def c9Stream : ChangeStream :=
  (subscribeOrSelf (mkChangeStream 1000 256 1000)).2

/-- Storage oracle on which every call succeeds. -/
def stOk : Storage :=
  { delete_ok := fun _ _ _ => true
    upsert_ok := fun _ _ _ _ _ => true }

/-- Storage oracle on which every upsert raises. -/
def stUpsertFail : Storage :=
  { delete_ok := fun _ _ _ => true
    upsert_ok := fun _ _ _ _ _ => false }

/-- Storage oracle on which every delete raises. -/
def stDeleteFail : Storage :=
  { delete_ok := fun _ _ _ => false
    upsert_ok := fun _ _ _ _ _ => true }

/-- A well-formed inbound `create` commit message for the recognized
collection `ac.foundation.dataset.record`. -/
def createMsg : JetEvent :=
  { did := "did:plc:alice"
    time_us := some 100
    kind := "commit"
    commit :=
      { operation := "create"
        collection := LEXICON_NAMESPACE ++ ".record"
        rkey := "3xyz"
        record := some [("name", "test-dataset")]
        cid := some "bafytest" } }

/-- A well-formed inbound `delete` commit message for the same record. -/
def deleteMsg : JetEvent :=
  { did := "did:plc:alice"
    time_us := some 101
    kind := "commit"
    commit :=
      { operation := "delete"
        collection := LEXICON_NAMESPACE ++ ".record"
        rkey := "3xyz"
        record := none
        cid := none } }

/-- Session state after consuming exactly `createMsg` with no flush due. -/
def c4State : ConnState :=
  { msg_count := 1, last_time_us := some 100, flushes := [], published := [] }

/-- The change event `process_commit` hands to `change_stream.publish` for
`createMsg` (timestamp `"ts0"`), before sequence assignment. -/
def c2Event : ChangeEvent :=
  { seq := 0
    type := "create"
    collection := "ac.foundation.dataset.record"
    did := "did:plc:alice"
    rkey := "3xyz"
    timestamp := "ts0"
    record := some [("name", "test-dataset")]
    cid := some "bafytest" }

/-! ## Broadcaster lemmas -/

theorem lastN_length_le {α : Type} (n : Nat) (l : List α) :
    (lastN n l).length ≤ n := by
  simp only [lastN, List.length_drop]
  omega

theorem lastN_of_length_le {α : Type} (n : Nat) (l : List α)
    (h : l.length ≤ n) : lastN n l = l := by
  simp [lastN, Nat.sub_eq_zero_of_le h]

theorem lastN_append_lastN {α : Type} (n : Nat) (xs ys : List α) :
    lastN n (lastN n xs ++ ys) = lastN n (xs ++ ys) := by
  unfold lastN
  rw [List.drop_append_eq_append_drop, List.drop_append_eq_append_drop,
    List.drop_drop]
  congr 1
  · congr 1
    simp only [List.length_append, List.length_drop]
    omega
  · congr 1
    simp only [List.length_append, List.length_drop]
    omega

theorem lastN_map {α β : Type} (f : α → β) (n : Nat) (l : List α) :
    (lastN n l).map f = lastN n (l.map f) := by
  simp [lastN, List.map_drop]

theorem seqRange_length (start : Int) (n : Nat) :
    (seqRange start n).length = n := by
  induction n generalizing start with
  | zero => rfl
  | succ m ih => simp [seqRange, ih]

theorem seqRange_drop (k : Nat) : ∀ (start : Int) (n : Nat),
    (seqRange start n).drop k = seqRange (start + k) (n - k) := by
  induction k with
  | zero => intro s n; simp
  | succ j ih =>
    intro s n
    cases n with
    | zero => simp [seqRange]
    | succ m =>
      simp only [seqRange, List.drop_succ_cons]
      rw [ih (s + 1) m]
      congr 1
      · push_cast
        ring
      · omega

theorem dequeAppend_eq_lastN (maxlen : Nat) (buf : List ChangeEvent)
    (ev : ChangeEvent) : dequeAppend maxlen buf ev = lastN maxlen (buf ++ [ev]) :=
  rfl

theorem publish_buffer_eq (cs : ChangeStream) (e : ChangeEvent) :
    (cs.publish e).buffer = lastN cs.buffer_size (cs.buffer ++ [cs.assignSeq e]) :=
  rfl

theorem publishedEvents_map_seq (es : List ChangeEvent) :
    ∀ cs : ChangeStream,
      (cs.publishedEvents es).map (fun e => e.seq) =
        seqRange (cs.seq + 1) es.length := by
  induction es with
  | nil => intro cs; rfl
  | cons e rest ih =>
    intro cs
    simp only [ChangeStream.publishedEvents, List.map_cons, List.length_cons,
      seqRange]
    rw [ih (cs.publish e)]
    rfl

theorem publishAll_seq (es : List ChangeEvent) :
    ∀ cs : ChangeStream, (cs.publishAll es).seq = cs.seq + es.length := by
  induction es with
  | nil => intro cs; simp [ChangeStream.publishAll]
  | cons e rest ih =>
    intro cs
    have h := ih (cs.publish e)
    simp only [ChangeStream.publishAll, List.foldl_cons] at h ⊢
    rw [h]
    show cs.seq + 1 + (rest.length : Int) = cs.seq + ((rest.length + 1 : Nat) : Int)
    push_cast
    ring

theorem publishAll_buffer (es : List ChangeEvent) :
    ∀ cs : ChangeStream, cs.buffer.length ≤ cs.buffer_size →
      (cs.publishAll es).buffer =
        lastN cs.buffer_size (cs.buffer ++ cs.publishedEvents es) := by
  induction es with
  | nil =>
    intro cs h
    simp [ChangeStream.publishAll, ChangeStream.publishedEvents,
      lastN_of_length_le _ _ h]
  | cons e rest ih =>
    intro cs h
    have hb1 := publish_buffer_eq cs e
    have hlen : (cs.publish e).buffer.length ≤ (cs.publish e).buffer_size := by
      rw [hb1]
      exact lastN_length_le _ _
    have hrec := ih (cs.publish e) hlen
    calc (cs.publishAll (e :: rest)).buffer
        = ((cs.publish e).publishAll rest).buffer := rfl
      _ = lastN cs.buffer_size
            ((cs.publish e).buffer ++ (cs.publish e).publishedEvents rest) :=
          hrec
      _ = lastN cs.buffer_size
            ((cs.buffer ++ [cs.assignSeq e]) ++
              (cs.publish e).publishedEvents rest) := by
          rw [hb1, lastN_append_lastN]
      _ = lastN cs.buffer_size (cs.buffer ++ cs.publishedEvents (e :: rest)) := by
          simp [ChangeStream.publishedEvents]

/-- Claim C6: publishing N events into a fresh broadcaster assigns the sequence
numbers 1, 2, ..., N in publish order — no gaps, no repeats — and
`current_seq` afterwards equals N. -/
theorem monotonic_sequencing (b q m : Nat) (es : List ChangeEvent) :
    ((mkChangeStream b q m).publishedEvents es).map (fun e => e.seq) =
      seqRange 1 es.length ∧
    ((mkChangeStream b q m).publishAll es).current_seq = es.length := by
  constructor
  · have h := publishedEvents_map_seq es (mkChangeStream b q m)
    simpa [mkChangeStream] using h
  · have h := publishAll_seq es (mkChangeStream b q m)
    simpa [ChangeStream.current_seq, mkChangeStream] using h

/-- Claim C7: after publishing N > C events into a fresh broadcaster with buffer
capacity C, the ring buffer holds exactly the C most recently published
events, oldest-first, i.e. the events with sequences N-C+1 through N; since
this holds for every publish sequence, each publish preserves it. -/
theorem bounded_buffer_recent (b q m : Nat) (es : List ChangeEvent)
    (h : b < es.length) :
    ((mkChangeStream b q m).publishAll es).buffer =
      lastN b ((mkChangeStream b q m).publishedEvents es) ∧
    ((mkChangeStream b q m).publishAll es).buffer.map (fun e => e.seq) =
      seqRange ((es.length : Int) - b + 1) b := by
  have hb : (mkChangeStream b q m).buffer.length ≤
      (mkChangeStream b q m).buffer_size := by
    simp [mkChangeStream]
  have h1 := publishAll_buffer es (mkChangeStream b q m) hb
  have h2 : ((mkChangeStream b q m).publishAll es).buffer =
      lastN b ((mkChangeStream b q m).publishedEvents es) := by
    simpa [mkChangeStream] using h1
  refine ⟨h2, ?_⟩
  rw [h2, lastN_map, publishedEvents_map_seq]
  show lastN b (seqRange ((mkChangeStream b q m).seq + 1) es.length) = _
  simp only [lastN, seqRange_length, mkChangeStream, seqRange_drop]
  congr 1 <;> omega

/-- Witness for C7: capacity 3, five publishes. -/
theorem bounded_buffer_recent_witness :
    3 < c1Events.length ∧
    (((mkChangeStream 3 256 1000).publishAll c1Events).buffer =
        lastN 3 ((mkChangeStream 3 256 1000).publishedEvents c1Events) ∧
      ((mkChangeStream 3 256 1000).publishAll c1Events).buffer.map
          (fun e => e.seq) =
        seqRange ((c1Events.length : Int) - 3 + 1) 3) :=
  ⟨by decide, bounded_buffer_recent 3 256 1000 c1Events (by decide)⟩

/-! ## Replay semantics -/

/-- Counterexample for C1: with buffer capacity 3 after five publishes, the
buffer holds sequences 3, 4, 5 and `replay_from 2` is NOT the empty
sequence — the window guard tests `cursor < oldest_seq - 1`, i.e. `2 < 2`,
which is false, so all three buffered events are returned. -/
theorem replay_cursor_two_counterexample :
    scenarioC1.buffer.map (fun e => e.seq) = [3, 4, 5] ∧
    scenarioC1.replay_from 2 ≠ [] ∧
    (scenarioC1.replay_from 2).map (fun e => e.seq) = [3, 4, 5] := by
  decide

/-- Claim C1 as amended: whenever the cursor is within the buffer window
(`oldest_seq - 1 ≤ cursor`, the empty buffer imposing no constraint),
`replay_from` returns exactly the buffered events with sequence strictly
greater than the cursor; in the concrete capacity-3 scenario holding
sequences 3, 4, 5, `replay_from 2` returns the events with sequences
3, 4, 5 (cursor 2 is still inside the window), `replay_from 1` returns the
empty sequence (window exceeded), and `replay_from 3` returns exactly the
events with sequences 4 and 5 in that order. -/
theorem replay_from_window_semantics (cs : ChangeStream) (cursor : Int)
    (h : ∀ e ∈ cs.buffer.head?, e.seq - 1 ≤ cursor) :
    cs.replay_from cursor = cs.buffer.filter (fun ev => cursor < ev.seq) ∧
    (scenarioC1.replay_from 2).map (fun e => e.seq) = [3, 4, 5] ∧
    scenarioC1.replay_from 1 = [] ∧
    (scenarioC1.replay_from 3).map (fun e => e.seq) = [4, 5] := by
  refine ⟨?_, by decide, by decide, by decide⟩
  cases hb : cs.buffer with
  | nil => simp [ChangeStream.replay_from, hb]
  | cons a l =>
    have ha := h a (by simp [hb])
    simp [ChangeStream.replay_from, hb, not_lt.mpr ha]

/-- Witness for the amended C1 at cursor 3 in the concrete scenario. -/
theorem replay_from_window_semantics_witness :
    (∀ e ∈ scenarioC1.buffer.head?, e.seq - 1 ≤ 3) ∧
    scenarioC1.replay_from 3 =
      scenarioC1.buffer.filter (fun ev => 3 < ev.seq) :=
  ⟨by decide, (replay_from_window_semantics scenarioC1 3 (by decide)).1⟩

theorem replay_from_too_old (cs : ChangeStream) (cursor s : Int)
    (hb : cs.buffer.head?.map (fun e => e.seq) = some s)
    (hc : cursor < s - 1) :
    cs.replay_from cursor = [] := by
  cases hbuf : cs.buffer with
  | nil => simp [ChangeStream.replay_from, hbuf]
  | cons a l =>
    rw [hbuf] at hb
    simp only [List.head?_cons, Option.map_some'] at hb
    have hc2 : cursor < a.seq - 1 := by
      rw [Option.some.injEq] at hb
      omega
    simp [ChangeStream.replay_from, hbuf, hc2]

/-- Claim C10: for a non-empty buffer whose oldest event carries sequence s,
`replay_from c` is empty for every cursor `c < s - 1`, even when nothing was
ever evicted; concretely, after publishing sequences 1..3 into a fresh
broadcaster of capacity 5, `replay_from 0` returns all three events while
`replay_from c` for any negative cursor returns the empty list. -/
theorem replay_below_window (cs : ChangeStream) (cursor s : Int)
    (hb : cs.buffer.head?.map (fun e => e.seq) = some s)
    (hc : cursor < s - 1) :
    cs.replay_from cursor = [] ∧
    scenarioC10.replay_from 0 = scenarioC10.buffer ∧
    (scenarioC10.replay_from 0).map (fun e => e.seq) = [1, 2, 3] ∧
    ∀ c : Int, c < 0 → scenarioC10.replay_from c = [] := by
  refine ⟨replay_from_too_old cs cursor s hb hc, by decide, by decide,
    fun c hcn => ?_⟩
  exact replay_from_too_old scenarioC10 c 1 (by decide) (by omega)

/-- Witness for C10: cursor 1 against the buffer holding sequences 3, 4, 5. -/
theorem replay_below_window_witness :
    scenarioC1.buffer.head?.map (fun e => e.seq) = some 3 ∧
    (1 : Int) < 3 - 1 ∧
    scenarioC1.replay_from 1 = [] :=
  ⟨by decide, by decide,
    (replay_below_window scenarioC1 1 3 (by decide) (by decide)).1⟩

/-! ## Subscription management -/

/-- Claim C9: unsubscribe is idempotent — a second unsubscribe of the same id is a
no-op leaving the whole broadcaster state (hence the subscriber count)
unchanged, and unsubscribing an id that was never registered (neither a
subscriber nor flagged dropped) changes nothing at all. -/
theorem unsubscribe_idempotent (cs : ChangeStream) (sub_id : Nat) :
    (cs.unsubscribe sub_id).unsubscribe sub_id = cs.unsubscribe sub_id ∧
    (sub_id ∉ cs.subscribers.map Prod.fst → sub_id ∉ cs.dropped_subs →
      cs.unsubscribe sub_id = cs) := by
  constructor
  · simp [ChangeStream.unsubscribe, List.filter_filter]
  · intro h1 h2
    have hs : (cs.subscribers.filter fun p => p.1 ≠ sub_id) = cs.subscribers := by
      rw [List.filter_eq_self]
      intro a ha
      have hne : a.1 ≠ sub_id := fun he =>
        h1 (he ▸ List.mem_map_of_mem Prod.fst ha)
      simpa using hne
    have hd : (cs.dropped_subs.filter fun x => x ≠ sub_id) = cs.dropped_subs := by
      rw [List.filter_eq_self]
      intro a ha
      have hne : a ≠ sub_id := fun he => h2 (he ▸ ha)
      simpa using hne
    unfold ChangeStream.unsubscribe
    rw [hs, hd]

/-- Witness for C9: id 7 was never registered on the one-subscriber stream. -/
theorem unsubscribe_idempotent_witness :
    (7 : Nat) ∉ c9Stream.subscribers.map Prod.fst ∧
    (7 : Nat) ∉ c9Stream.dropped_subs ∧
    c9Stream.unsubscribe 7 = c9Stream :=
  ⟨by decide, by decide,
    (unsubscribe_idempotent c9Stream 7).2 (by decide) (by decide)⟩

/-- Claim C8: publish is a total function that keeps every subscriber registered
(the id set is unchanged by a publish, full queue or not); concretely, with
subscriber queue capacity 1, publishing two events leaves exactly the first
event (sequence 1) in the subscriber's queue and flags it dropped, while the
subscriber of an independent broadcaster with the default queue capacity
receives both events and is not flagged. -/
theorem backpressure_isolation (cs : ChangeStream) (event : ChangeEvent) :
    (cs.publish event).subscribers.map Prod.fst =
      cs.subscribers.map Prod.fst ∧
    c8Slow.subscribers = [(0, [c8ev1])] ∧
    c8Slow.is_dropped 0 = true ∧
    c8Fast.subscribers = [(0, [c8ev1, c8ev2])] ∧
    c8Fast.is_dropped 0 = false := by
  refine ⟨?_, by decide, by decide, by decide, by decide⟩
  show (cs.subscribers.map _).map Prod.fst = cs.subscribers.map Prod.fst
  rw [List.map_map]
  apply List.map_congr_left
  intro p _
  cases hq : queuePutNowait cs.subscriber_queue_size p.2 (cs.assignSeq event) <;>
    simp [hq, Function.comp]

/-! ## Ingestion lemmas -/

theorem collectionTable_mem (c t : String) (h : collectionTable c = some t) :
    t = "schemas" ∨ t = "entries" ∨ t = "labels" ∨ t = "lenses" := by
  unfold collectionTable COLLECTION_TABLE_MAP at h
  simp only [List.find?] at h
  repeat' split at h
  all_goals simp_all

theorem upsertDispatch_known (st : Storage) (t did rkey : String)
    (cid : Option String) (record : RecordData)
    (ht : t = "schemas" ∨ t = "entries" ∨ t = "labels" ∨ t = "lenses") :
    upsertDispatch st t did rkey cid record =
      st.upsert_ok t did rkey cid record := by
  rcases ht with h | h | h | h <;> subst h <;> rfl

theorem delete_record_known (st : Storage) (t did rkey : String)
    (ht : t = "schemas" ∨ t = "entries" ∨ t = "labels" ∨ t = "lenses") :
    delete_record st t did rkey = st.delete_ok t did rkey := by
  rcases ht with h | h | h | h <;> subst h <;> rfl

theorem process_commit_no_stream (st : Storage) (e : JetEvent) (ts : String)
    (evs : List ChangeEvent) (h : process_commit st e false ts = .ok evs) :
    evs = [] := by
  unfold process_commit at h
  rcases hcol : collectionTable e.commit.collection with _ | table <;>
    simp only [hcol] at h
  · simp_all
  · repeat' split at h
    all_goals simp_all

theorem jetstreamStep_published (st : Storage) (s : ConnState) (m : JetEvent)
    (due : Bool) : ((jetstreamStep st s m due).1).published = s.published := by
  unfold jetstreamStep
  split
  · rfl
  · rcases hp : process_commit st m false "" with msg | evs
    · simp
    · have hnil : evs = [] := process_commit_no_stream st m "" evs hp
      subst hnil
      simp only [hp]
      split <;> simp

theorem runMsgs_published (st : Storage) (msgs : List (JetEvent × Bool)) :
    ∀ s : ConnState, ((runMsgs st s msgs).1).published = s.published := by
  induction msgs with
  | nil => intro s; rfl
  | cons md rest ih =>
    intro s
    rcases md with ⟨m, due⟩
    rcases hJ : jetstreamStep st s m due with ⟨s1, fl⟩
    have hpub : s1.published = s.published := by
      have h := jetstreamStep_published st s m due
      rw [hJ] at h
      exact h
    cases fl
    · have hred : runMsgs st s ((m, due) :: rest) = runMsgs st s1 rest := by
        simp [runMsgs, hJ]
      rw [hred, ih s1, hpub]
    · have hred : runMsgs st s ((m, due) :: rest) = (s1, true) := by
        simp [runMsgs, hJ]
      rw [hred]
      exact hpub

/-- Claim C2, evaluated on the code: the claim fails on the code. `jetstream_consumer` invokes
`process_commit(pool, event)` without a change stream (the parameter
defaults to `None`, and `main.py` never constructs `app.state.change_stream`
either), so no consumer session ever publishes anything to the Change
Broadcaster — even though the commit translation, when handed a change
stream, does produce the create event for the very same message. -/
theorem consumer_never_publishes (st : Storage) (msgs : List (JetEvent × Bool))
    (close : CloseReason) :
    (runConnection st msgs close).published = [] ∧
    process_commit stOk createMsg true "ts0" = .ok [c2Event] := by
  constructor
  · rcases hr : runMsgs st initConnState msgs with ⟨s, fl⟩
    have hpub : s.published = [] := by
      have h := runMsgs_published st msgs initConnState
      rw [hr] at h
      exact h
    cases fl
    · cases close <;> simp only [runConnection, hr]
      · unfold finalFlush
        split <;> simp [hpub]
      · exact hpub
      · unfold finalFlush
        split <;> simp [hpub]
    · simp only [runConnection, hr]
      exact hpub
  · rfl

/-- Claim C3: a create/update commit whose storage upsert raises produces no
ChangeEvent (nothing is handed to the change stream), the exception is
caught inside `process_commit`, and the consumer loop proceeds with the
subsequent messages. -/
theorem upsert_failure_suppresses_event (st : Storage) (event : JetEvent)
    (table : String) (record : RecordData) (b : Bool) (ts : String)
    (hcol : collectionTable event.commit.collection = some table)
    (hop : event.commit.operation = "create" ∨
      event.commit.operation = "update")
    (hrec : event.commit.record = some record)
    (hup : st.upsert_ok table event.did event.commit.rkey event.commit.cid
      record = false) :
    process_commit st event b ts = .ok [] ∧
    ∀ (s : ConnState) (due : Bool) (rest : List (JetEvent × Bool)),
      event.kind = "commit" →
      runMsgs st s ((event, due) :: rest) =
        runMsgs st (jetstreamStep st s event due).1 rest := by
  have hdisp : upsertDispatch st table event.did event.commit.rkey
      event.commit.cid record = false := by
    rw [upsertDispatch_known st table _ _ _ _ (collectionTable_mem _ _ hcol)]
    exact hup
  have h1 : ∀ (b2 : Bool) (ts2 : String),
      process_commit st event b2 ts2 = .ok [] := by
    intro b2 ts2
    rcases hop with hop | hop <;>
      simp [process_commit, hcol, hop, hrec, hdisp]
  refine ⟨h1 b ts, ?_⟩
  intro s due rest hk
  have hsnd : (jetstreamStep st s event due).2 = false := by
    simp only [jetstreamStep, hk, h1 false ""]
    repeat' split
    all_goals simp
  rcases hJ : jetstreamStep st s event due with ⟨s1, fl⟩
  have hfl : fl = false := by rw [hJ] at hsnd; exact hsnd
  subst hfl
  simp [runMsgs, hJ]

/-- Witness for C3: `createMsg` against the always-failing upsert oracle. -/
theorem upsert_failure_suppresses_event_witness :
    collectionTable createMsg.commit.collection = some "entries" ∧
    process_commit stUpsertFail createMsg true "ts0" = .ok [] :=
  ⟨by decide,
    (upsert_failure_suppresses_event stUpsertFail createMsg "entries"
      [("name", "test-dataset")] true "ts0" (by decide) (Or.inl rfl) rfl
      rfl).1⟩

/-- Counterexample for C5: a delete commit whose storage delete raises makes
`process_commit` itself raise (the claim says no exception escapes), and in
the consumer loop the exception aborts the connection — the following commit
of the same session is never processed. -/
theorem delete_failure_escapes_counterexample :
    process_commit stDeleteFail deleteMsg true "" =
      .error "delete_record raised" ∧
    runMsgs stDeleteFail initConnState [(deleteMsg, false), (createMsg, false)] =
      (initConnState, true) :=
  ⟨rfl, rfl⟩

/-- Claim C5 as amended: a failing storage delete is logged only by the outer
connection-level handler: `process_commit` does not catch it (only
create/update upsert failures are suppressed), the exception escapes to the
caller, and the surrounding ingestion loop IS aborted — the remaining
messages of that connection are dropped and the consumer reconnects with
backoff. -/
theorem delete_failure_propagates (st : Storage) (event : JetEvent)
    (table : String) (b : Bool) (ts : String)
    (hcol : collectionTable event.commit.collection = some table)
    (hop : event.commit.operation = "delete")
    (hdel : st.delete_ok table event.did event.commit.rkey = false) :
    process_commit st event b ts = .error "delete_record raised" ∧
    ∀ (s : ConnState) (due : Bool) (rest : List (JetEvent × Bool)),
      event.kind = "commit" →
      runMsgs st s ((event, due) :: rest) = (s, true) := by
  have hdel2 : delete_record st table event.did event.commit.rkey = false := by
    rw [delete_record_known st table _ _ (collectionTable_mem _ _ hcol)]
    exact hdel
  have h1 : ∀ (b2 : Bool) (ts2 : String),
      process_commit st event b2 ts2 = .error "delete_record raised" := by
    intro b2 ts2
    simp [process_commit, hcol, hop, hdel2]
  refine ⟨h1 b ts, ?_⟩
  intro s due rest hk
  have hJ : jetstreamStep st s event due = (s, true) := by
    simp [jetstreamStep, hk, h1 false ""]
  simp [runMsgs, hJ]

/-- Witness for C5 (amended): `deleteMsg` against the failing-delete oracle. -/
theorem delete_failure_propagates_witness :
    collectionTable deleteMsg.commit.collection = some "entries" ∧
    process_commit stDeleteFail deleteMsg true "" =
      .error "delete_record raised" :=
  ⟨by decide,
    (delete_failure_propagates stDeleteFail deleteMsg "entries" true ""
      (by decide) rfl rfl).1⟩

/-- Counterexample for C4: a session that saw one commit (`time_us = 100`) and
then hits a connection-level error reconnects WITHOUT persisting the
cursor, while the identical session closed normally (or cancelled) does
flush — the "or abnormally" half of the claim fails on the code. -/
theorem error_close_skips_flush_counterexample :
    (runConnection stOk [(createMsg, false)] CloseReason.error).flushes = [] ∧
    (runConnection stOk [(createMsg, false)]
      CloseReason.error).last_time_us = some 100 ∧
    (runConnection stOk [(createMsg, false)]
      CloseReason.normal).flushes = [100] ∧
    (runConnection stOk [(createMsg, false)]
      CloseReason.cancelled).flushes = [100] := by
  decide

/-- Claim C4 as amended: the final cursor flush happens when the connection closes
normally and when the consumer is cancelled — provided at least one commit
with a truthy `time_us` was seen since connecting — but NOT on an abnormal
close: a connection-level error only logs, backs off and reconnects without
flushing. -/
theorem final_flush_policy (st : Storage) (msgs : List (JetEvent × Bool))
    (s : ConnState) (t : Int)
    (hrun : runMsgs st initConnState msgs = (s, false))
    (ht : s.last_time_us = some t) (ht0 : t ≠ 0) :
    runConnection st msgs CloseReason.normal =
      { s with flushes := s.flushes ++ [t] } ∧
    runConnection st msgs CloseReason.cancelled =
      { s with flushes := s.flushes ++ [t] } ∧
    runConnection st msgs CloseReason.error = s := by
  have hf : finalFlush s = { s with flushes := s.flushes ++ [t] } := by
    simp [finalFlush, truthyTime, ht, ht0]
  refine ⟨?_, ?_, ?_⟩ <;> simp [runConnection, hrun, hf]

/-- Witness for C4 (amended): the one-commit session flushed on normal
close. -/
theorem final_flush_policy_witness :
    runMsgs stOk initConnState [(createMsg, false)] = (c4State, false) ∧
    c4State.last_time_us = some 100 ∧
    runConnection stOk [(createMsg, false)] CloseReason.normal =
      { c4State with flushes := c4State.flushes ++ [100] } :=
  ⟨by decide, rfl,
    (final_flush_policy stOk [(createMsg, false)] c4State 100 (by decide) rfl
      (by decide)).1⟩

end AtData
